import Mathlib

/-!
Verification development for the dual-write notes application.

The application keeps two note collections (primary and fallback); a
process-wide outage flag selects which collection is read.  Users come
from a fixed in-memory table; handlers authenticate, consult the
authorization policy, act on the store and append audit events.

We embed the state of the store (the two note collections, the outage
flag and the audit log) as a structure `St`, and the request handlers of
`src/server.js` (namespace `Server`), `src/api/index.js` (namespace
`Api`) and the session variant in `src/unnamed/part_001` (namespace
`Session`) as pure state-passing functions.  Missing JSON fields are
modelled as `Option` values (JavaScript `undefined`); the truthiness
test `!x` on a string field is `falsy`.  The wall-clock value returned
by `Date.now()` is passed in explicitly as a `now : Nat` parameter.
A possible failure of the audit store's insert is modelled by the flag
`auditSinkFails`: the try/catch logger of `src/server.js` swallows it,
the session-variant logger (no try/catch) propagates it as an `Except`
error.
-/

/-- A user record of the fixed in-memory `USERS` table. -/
structure User where
  id : Nat
  username : String
  password : String
  role : String
deriving Repr, DecidableEq

/-- The fixed identity store (`USERS` in all server variants). -/
def USERS : List User :=
  [ ⟨1, "user1", "password1", "user"⟩,
    ⟨2, "user2", "password2", "user"⟩,
    ⟨99, "admin", "adminpass", "admin"⟩ ]

/-- The identity carried by a verified token payload: `{id, username, role}`. -/
structure Identity where
  id : Nat
  username : String
  role : String
deriving Repr, DecidableEq

/-- A note record.  `content` is an `Option` because `src/server.js`
creates the note from `req.body.content` without validation, so the
stored field may be absent. -/
structure Note where
  id : Nat
  content : Option String
  authorId : Nat
  authorUsername : String
  timestamp : Nat
deriving Repr, DecidableEq

/-- An audit event as inserted into `audit_logs`.  `username` is an
`Option` because a failed login logs the attempted username, which may
be absent from the request body. -/
structure AuditEvent where
  timestamp : Nat
  username : Option String
  role : String
  action : String
deriving Repr, DecidableEq

/-- The mutable state the handlers touch: the two note collections,
the process-wide outage flag `global.PRIMARY_DB_IS_DOWN`, the audit
log, and a flag saying whether the audit store's insert fails. -/
structure St where
  primary : List Note
  fallback : List Note
  outage : Bool
  audit : List AuditEvent
  auditSinkFails : Bool
deriving Repr, DecidableEq

/-- JavaScript truthiness test `!x` for a possibly missing string:
true when the field is absent or the empty string. -/
def falsy : Option String → Bool
  | none => true
  | some s => s == ""

/-- `USERS[username]`: lookup of a possibly missing username in the
identity store. -/
def findUser : Option String → Option User
  | none => none
  | some u => USERS.find? (fun x => x.username == u)

/-- `user.password !== password` is false (i.e. the passwords match)
exactly when the given password is present and equal to the stored one. -/
def passwordMatches (stored : String) (given : Option String) : Bool :=
  match given with
  | some p => stored == p
  | none => false

/-- Insert a note into a list already ordered by timestamp descending,
keeping it in front of strictly older notes (stable for equal
timestamps, since the inserted note came earlier in the collection). -/
def insertDesc (n : Note) : List Note → List Note
  | [] => [n]
  | m :: l =>
      if m.timestamp ≤ n.timestamp then n :: m :: l
      else m :: insertDesc n l

/-- `.sort({ timestamp: -1 })`: order a collection by timestamp
descending (stable insertion sort). -/
def sortByTimestampDesc : List Note → List Note
  | [] => []
  | n :: l => insertDesc n (sortByTimestampDesc l)

/-- `dbHandler.getNotes`: read the collection the outage flag selects
(`notes_fallback` when the flag is set, `notes_primary` otherwise),
sorted by timestamp descending. -/
def getNotes (st : St) : List Note :=
  sortByTimestampDesc (if st.outage then st.fallback else st.primary)

/-- `dbHandler.addNote`: insert the same record into `notes_primary`
and then into `notes_fallback`. -/
def addNote (note : Note) (st : St) : St :=
  { st with
    primary := st.primary ++ [note],
    fallback := st.fallback ++ [note] }

/-- `dbHandler.deleteNote`: `deleteOne({ id: noteId })` on each
collection removes the first record whose `id` matches. -/
def deleteNote (noteId : Nat) (st : St) : St :=
  { st with
    primary := st.primary.eraseP (fun n => n.id == noteId),
    fallback := st.fallback.eraseP (fun n => n.id == noteId) }

/-- The note record built by the create handler:
`{ id: Date.now(), content, authorId, authorUsername, timestamp }`
(the timestamp and the id come from the same clock reading). -/
def newNote (user : Identity) (content : Option String) (now : Nat) : Note :=
  { id := now
    content := content
    authorId := user.id
    authorUsername := user.username
    timestamp := now }

/-- The visibility policy of GET `/api/notes`: admin sees all notes,
anyone else only those with `authorId === req.user.id`. -/
def visibleNotes (user : Identity) (notes : List Note) : List Note :=
  if user.role == "admin" then notes
  else notes.filter (fun n => n.authorId == user.id)

/-- `canDelete` of the delete handler:
`note.authorId === req.user.id || req.user.role === 'admin'`. -/
def canDelete (user : Identity) (note : Note) : Bool :=
  note.authorId == user.id || user.role == "admin"

/-- Outcome of the login handler. -/
inductive LoginResult where
  | ok (user : Identity)
  | invalid
  | badRequest
deriving Repr, DecidableEq

/-- Outcome of the create-note handler. -/
inductive CreateResult where
  | created (note : Note)
  | badRequest
deriving Repr, DecidableEq

/-- Outcome of the delete-note handler. -/
inductive DeleteResult where
  | deleted
  | notFound
  | denied
deriving Repr, DecidableEq

namespace Server

/-- The logger of `src/server.js`: the `insertOne` into `audit_logs`
is wrapped in try/catch, so a failing audit store loses the event but
the caller always gets the state back without an error. -/
def logger (ev : AuditEvent) (st : St) : St :=
  if st.auditSinkFails then st
  else { st with audit := st.audit ++ [ev] }

/-- POST `/api/login` of `src/server.js`: look the username up in
`USERS`; on absent user or password mismatch log `LOGIN_FAILED` with
role `unknown` and answer 401; on success log `LOGIN_SUCCESS` and
answer with the `{id, username, role}` token payload. -/
def login (username password : Option String) (now : Nat) (st : St) :
    LoginResult × St :=
  match findUser username with
  | none =>
      (LoginResult.invalid, logger ⟨now, username, "unknown", "LOGIN_FAILED"⟩ st)
  | some user =>
      if passwordMatches user.password password then
        (LoginResult.ok ⟨user.id, user.username, user.role⟩,
         logger ⟨now, some user.username, user.role, "LOGIN_SUCCESS"⟩ st)
      else
        (LoginResult.invalid, logger ⟨now, username, "unknown", "LOGIN_FAILED"⟩ st)

/-- GET `/api/logout` of `src/server.js`: log `LOGOUT` and clear the
cookie (the cookie lives client-side, so the state change is the log). -/
def logout (user : Identity) (now : Nat) (st : St) : St :=
  logger ⟨now, some user.username, user.role, "LOGOUT"⟩ st

/-- GET `/api/notes` of `src/server.js`: read via `dbHandler.getNotes`
and filter by the visibility policy. -/
def listNotes (user : Identity) (st : St) : List Note :=
  visibleNotes user (getNotes st)

/-- POST `/api/notes` of `src/server.js`: build the record from
`Date.now()` and the request, dual-write it, log `CREATE_NOTE`,
answer 201 with the record.  There is no validation of `content`. -/
def createNote (user : Identity) (content : Option String) (now : Nat) (st : St) :
    CreateResult × St :=
  let note := newNote user content now
  let st1 := addNote note st
  let st2 := logger ⟨now, some user.username, user.role, "CREATE_NOTE"⟩ st1
  (CreateResult.created note, st2)

/-- DELETE `/api/notes/:id` of `src/server.js`: find the note in the
collection `getNotes` reads; 404 when absent; when `canDelete` denies,
log `DELETE_NOTE_DENIED` and answer 403; otherwise delete from both
collections, log `DELETE_NOTE` and answer 200. -/
def deleteHandler (user : Identity) (noteId : Nat) (now : Nat) (st : St) :
    DeleteResult × St :=
  let notes := getNotes st
  match notes.find? (fun n => n.id == noteId) with
  | none => (DeleteResult.notFound, st)
  | some note =>
      if canDelete user note then
        let st1 := deleteNote noteId st
        (DeleteResult.deleted,
         logger ⟨now, some user.username, user.role, "DELETE_NOTE"⟩ st1)
      else
        (DeleteResult.denied,
         logger ⟨now, some user.username, user.role, "DELETE_NOTE_DENIED"⟩ st)

/-- POST `/api/toggle_db` of `src/server.js`: flip
`global.PRIMARY_DB_IS_DOWN` and answer with the new value. -/
def toggleDb (st : St) : Bool × St :=
  let newFlag := !st.outage
  (newFlag, { st with outage := newFlag })

end Server

namespace Api

/-- POST `/api/login` of `src/api/index.js`: same as the `src/server.js`
handler except that a falsy username or password is rejected with 400
before any lookup or logging. -/
def login (username password : Option String) (now : Nat) (st : St) :
    LoginResult × St :=
  if falsy username || falsy password then (LoginResult.badRequest, st)
  else Server.login username password now st

/-- POST `/api/notes` of `src/api/index.js`: same as the `src/server.js`
handler except that a falsy `content` is rejected with 400 before the
record is built. -/
def createNote (user : Identity) (content : Option String) (now : Nat) (st : St) :
    CreateResult × St :=
  if falsy content then (CreateResult.badRequest, st)
  else Server.createNote user content now st

end Api

namespace Session

/-- The logger of the session variant (`src/unnamed/part_001`): the
`insertOne` into `audit_logs` is awaited with no try/catch, so a
failing audit store rejects the whole handler. -/
def logger (ev : AuditEvent) (st : St) : Except String St :=
  if st.auditSinkFails then Except.error "audit insert failed"
  else Except.ok { st with audit := st.audit ++ [ev] }

/-- POST `/api/notes` of the session variant: dual-write the record,
then `await logger(...)`, then answer 201.  A rejected logger promise
aborts the handler before the 201 is sent. -/
def createNote (user : Identity) (content : Option String) (now : Nat) (st : St) :
    Except String (CreateResult × St) :=
  let note := newNote user content now
  let st1 := addNote note st
  match logger ⟨now, some user.username, user.role, "CREATE_NOTE"⟩ st1 with
  | Except.error e => Except.error e
  | Except.ok st2 => Except.ok (CreateResult.created note, st2)

end Session

section Helpers

/-- The try/catch logger never touches the primary collection. -/
theorem logger_primary (ev : AuditEvent) (st : St) :
    (Server.logger ev st).primary = st.primary := by
  unfold Server.logger; split <;> rfl

/-- The try/catch logger never touches the fallback collection. -/
theorem logger_fallback (ev : AuditEvent) (st : St) :
    (Server.logger ev st).fallback = st.fallback := by
  unfold Server.logger; split <;> rfl

/-- The try/catch logger never touches the outage flag. -/
theorem logger_outage (ev : AuditEvent) (st : St) :
    (Server.logger ev st).outage = st.outage := by
  unfold Server.logger; split <;> rfl

/-- When the audit store works, the try/catch logger appends its event. -/
theorem logger_audit_ok (ev : AuditEvent) (st : St) (h : st.auditSinkFails = false) :
    (Server.logger ev st).audit = st.audit ++ [ev] := by
  unfold Server.logger; rw [h]; rfl

/-- Membership is invariant under `insertDesc`. -/
theorem mem_insertDesc (a n : Note) (l : List Note) :
    a ∈ insertDesc n l ↔ a = n ∨ a ∈ l := by
  induction l with
  | nil => simp [insertDesc]
  | cons m l ih =>
      rw [insertDesc]
      split
      · simp
      · rw [List.mem_cons, ih, List.mem_cons]
        tauto

/-- Sorting by timestamp does not change the set of notes. -/
theorem mem_sortByTimestampDesc (a : Note) (l : List Note) :
    a ∈ sortByTimestampDesc l ↔ a ∈ l := by
  induction l with
  | nil => simp [sortByTimestampDesc]
  | cons n l ih => simp [sortByTimestampDesc, mem_insertDesc, ih]

/-- If a predicate holds for at most one element of a list, it holds for
no element once `eraseP` has removed the first match. -/
theorem countP_le_one_eraseP {α : Type} (p : α → Bool) :
    ∀ l : List α, l.countP p ≤ 1 → ∀ x ∈ l.eraseP p, p x = false := by
  intro l
  induction l with
  | nil => intro _ x hx; simp at hx
  | cons a l ih =>
      intro h x hx
      by_cases hpa : p a = true
      · rw [List.eraseP_cons_of_pos hpa] at hx
        have h0 : l.countP p = 0 := by
          have hc := List.countP_cons_of_pos p l hpa
          omega
        simpa using List.countP_eq_zero.mp h0 x hx
      · rw [List.eraseP_cons_of_neg hpa] at hx
        rcases List.mem_cons.mp hx with rfl | hx'
        · simpa using hpa
        · refine ih ?_ x hx'
          have hc := List.countP_cons_of_neg p l hpa
          omega

end Helpers

/-- C2: on GET /notes the visibility filter gives an admin every note
unchanged, and a non-admin exactly the notes whose authorId equals the
identity's id; it is a pure function of the identity and the list. -/
theorem visibleNotes_policy (user : Identity) (notes : List Note) :
    (user.role = "admin" → visibleNotes user notes = notes) ∧
    (user.role ≠ "admin" →
      visibleNotes user notes = notes.filter (fun n => n.authorId == user.id) ∧
      ∀ n : Note, n ∈ visibleNotes user notes ↔ n ∈ notes ∧ n.authorId = user.id) := by
  constructor
  · intro h; simp [visibleNotes, h]
  · intro h
    have hb : (user.role == "admin") = false := by
      simpa using h
    constructor
    · simp [visibleNotes, hb]
    · intro n
      simp [visibleNotes, hb, List.mem_filter]

/-- Witness for C2 at a concrete non-admin identity and note list. -/
theorem visibleNotes_policy_witness :
    visibleNotes ⟨1, "user1", "user"⟩
        [⟨5, some "a", 1, "user1", 5⟩, ⟨6, some "b", 2, "user2", 6⟩]
      = [⟨5, some "a", 1, "user1", 5⟩] := by
  have h := (visibleNotes_policy ⟨1, "user1", "user"⟩
      [⟨5, some "a", 1, "user1", 5⟩, ⟨6, some "b", 2, "user2", 6⟩]).2 (by decide)
  rw [h.1]; decide

/-- C6: the outage toggle flips the process-wide flag and returns the
new value; toggling twice restores the original state exactly, neither
toggle changes either note collection, and the read target afterwards
delivers the same notes as before. -/
theorem toggleDb_double_restores_read_target (st : St) :
    (Server.toggleDb st).fst = !st.outage ∧
    (Server.toggleDb st).snd.outage = !st.outage ∧
    (Server.toggleDb st).snd.primary = st.primary ∧
    (Server.toggleDb st).snd.fallback = st.fallback ∧
    (Server.toggleDb (Server.toggleDb st).snd).fst = st.outage ∧
    (Server.toggleDb (Server.toggleDb st).snd).snd = st ∧
    getNotes (Server.toggleDb (Server.toggleDb st).snd).snd = getNotes st := by
  refine ⟨rfl, rfl, rfl, rfl, by simp [Server.toggleDb], ?_, ?_⟩
  · simp [Server.toggleDb]
  · simp [Server.toggleDb]

/-- C1: a note created via the create handler is appended to both the
primary and the fallback collection as the same record (identical field
values); immediately afterwards the store-level read includes it under
either value of the outage flag; and it stays in both collections under
any later create and under any delete of a different id. -/
theorem createNote_dual_write_and_listed (user : Identity) (content : Option String)
    (now : Nat) (st : St) (b : Bool) :
    (Server.createNote user content now st).fst
        = CreateResult.created (newNote user content now) ∧
    (Server.createNote user content now st).snd.primary
        = st.primary ++ [newNote user content now] ∧
    (Server.createNote user content now st).snd.fallback
        = st.fallback ++ [newNote user content now] ∧
    newNote user content now ∈
        getNotes { (Server.createNote user content now st).snd with outage := b } ∧
    (∀ n2 : Note,
        newNote user content now
            ∈ (addNote n2 (Server.createNote user content now st).snd).primary ∧
        newNote user content now
            ∈ (addNote n2 (Server.createNote user content now st).snd).fallback) ∧
    (∀ nid : Nat, nid ≠ now →
        newNote user content now
            ∈ (deleteNote nid (Server.createNote user content now st).snd).primary ∧
        newNote user content now
            ∈ (deleteNote nid (Server.createNote user content now st).snd).fallback) := by
  have hp : (Server.createNote user content now st).snd.primary
      = st.primary ++ [newNote user content now] := by
    simp [Server.createNote, logger_primary, addNote]
  have hf : (Server.createNote user content now st).snd.fallback
      = st.fallback ++ [newNote user content now] := by
    simp [Server.createNote, logger_fallback, addNote]
  refine ⟨rfl, hp, hf, ?_, ?_, ?_⟩
  · rw [getNotes, mem_sortByTimestampDesc]
    cases b <;> simp [hp, hf]
  · intro n2
    constructor <;> simp [addNote, hp, hf]
  · intro nid hne
    have hpe : ((newNote user content now).id == nid) = false := by
      simp [newNote]
      exact fun h => hne h.symm
    constructor
    · rw [deleteNote]
      show newNote user content now
          ∈ ((Server.createNote user content now st).snd.primary).eraseP
              (fun n => n.id == nid)
      rw [List.mem_eraseP_of_neg (by simp [hpe])]
      simp [hp]
    · rw [deleteNote]
      show newNote user content now
          ∈ ((Server.createNote user content now st).snd.fallback).eraseP
              (fun n => n.id == nid)
      rw [List.mem_eraseP_of_neg (by simp [hpe])]
      simp [hf]

/-- Witness for C1: a concrete create lands in both collections, is
listed under both flag states, and survives a delete of another id. -/
theorem createNote_dual_write_and_listed_witness :
    (Server.createNote ⟨1, "user1", "user"⟩ (some "hello") 5
        ⟨[], [], false, [], false⟩).snd.primary
      = [⟨5, some "hello", 1, "user1", 5⟩] ∧
    newNote ⟨1, "user1", "user"⟩ (some "hello") 5
      ∈ (deleteNote 9 (Server.createNote ⟨1, "user1", "user"⟩ (some "hello") 5
          ⟨[], [], false, [], false⟩).snd).fallback := by
  have h := createNote_dual_write_and_listed ⟨1, "user1", "user"⟩ (some "hello") 5
      ⟨[], [], false, [], false⟩ true
  refine ⟨?_, (h.2.2.2.2.2 9 (by decide)).2⟩
  rw [h.2.1]; decide

/-- `canDelete` as a proposition. -/
theorem canDelete_iff (user : Identity) (note : Note) :
    canDelete user note = true ↔ (note.authorId = user.id ∨ user.role = "admin") := by
  simp [canDelete]

/-- C3: given a note found by id in the active collection, the delete
handler succeeds exactly when the caller owns the note or is admin;
on denial it answers 403 with a `DELETE_NOTE_DENIED` audit event
appended and both note collections untouched. -/
theorem deleteHandler_authorization (user : Identity) (nid now : Nat) (st : St)
    (note : Note)
    (hfind : (getNotes st).find? (fun n => n.id == nid) = some note)
    (hsink : st.auditSinkFails = false) :
    ((Server.deleteHandler user nid now st).fst = DeleteResult.deleted ↔
        (note.authorId = user.id ∨ user.role = "admin")) ∧
    (¬(note.authorId = user.id ∨ user.role = "admin") →
        (Server.deleteHandler user nid now st).fst = DeleteResult.denied ∧
        (Server.deleteHandler user nid now st).snd.primary = st.primary ∧
        (Server.deleteHandler user nid now st).snd.fallback = st.fallback ∧
        (Server.deleteHandler user nid now st).snd.audit
          = st.audit ++ [⟨now, some user.username, user.role, "DELETE_NOTE_DENIED"⟩]) := by
  by_cases hcan : canDelete user note = true
  · constructor
    · constructor
      · intro _
        exact (canDelete_iff user note).mp hcan
      · intro _
        simp [Server.deleteHandler, hfind, hcan]
    · intro hno
      exact absurd ((canDelete_iff user note).mp hcan) hno
  · have hcan' : canDelete user note = false := by
      cases h : canDelete user note
      · rfl
      · exact absurd h hcan
    constructor
    · constructor
      · intro hdel
        exfalso
        rw [Server.deleteHandler] at hdel
        simp only [hfind, hcan'] at hdel
        simp at hdel
      · intro hperm
        exact absurd ((canDelete_iff user note).mpr hperm) hcan
    · intro _
      refine ⟨?_, ?_, ?_, ?_⟩
      · simp [Server.deleteHandler, hfind, hcan']
      · simp [Server.deleteHandler, hfind, hcan', logger_primary]
      · simp [Server.deleteHandler, hfind, hcan', logger_fallback]
      · simp only [Server.deleteHandler, hfind, hcan']
        simp [logger_audit_ok _ _ hsink]

/-- Witness for C3: user2 may not delete user1's note; the audit trail
gets the denial event and the collections stay as they were. -/
theorem deleteHandler_authorization_witness :
    (Server.deleteHandler ⟨2, "user2", "user"⟩ 5 8
        ⟨[⟨5, some "a", 1, "user1", 5⟩], [⟨5, some "a", 1, "user1", 5⟩],
         false, [], false⟩).fst = DeleteResult.denied := by
  have h := deleteHandler_authorization ⟨2, "user2", "user"⟩ 5 8
      ⟨[⟨5, some "a", 1, "user1", 5⟩], [⟨5, some "a", 1, "user1", 5⟩],
       false, [], false⟩ ⟨5, some "a", 1, "user1", 5⟩ (by decide) (by decide)
  exact (h.2 (by decide)).1

/-- C4: login succeeds exactly on a stored (username, password) pair,
answering with the stored user's `{id, username, role}` and logging
`LOGIN_SUCCESS`; any other pair gets an invalid-credentials failure
and a `LOGIN_FAILED` audit event carrying the attempted username and
the literal role `unknown`, which is no stored user's role. -/
theorem login_credential_check (username password : Option String) (now : Nat)
    (st : St) (hsink : st.auditSinkFails = false) :
    (∀ u : User, findUser username = some u →
        (passwordMatches u.password password = true →
            (Server.login username password now st).fst
              = LoginResult.ok ⟨u.id, u.username, u.role⟩ ∧
            (Server.login username password now st).snd.audit
              = st.audit ++ [⟨now, some u.username, u.role, "LOGIN_SUCCESS"⟩]) ∧
        (passwordMatches u.password password = false →
            (Server.login username password now st).fst = LoginResult.invalid ∧
            (Server.login username password now st).snd.audit
              = st.audit ++ [⟨now, username, "unknown", "LOGIN_FAILED"⟩])) ∧
    (findUser username = none →
        (Server.login username password now st).fst = LoginResult.invalid ∧
        (Server.login username password now st).snd.audit
          = st.audit ++ [⟨now, username, "unknown", "LOGIN_FAILED"⟩]) ∧
    (∀ u : User, u ∈ USERS → u.role ≠ "unknown") := by
  refine ⟨?_, ?_, by decide⟩
  · intro u hu
    constructor
    · intro hpw
      constructor
      · simp [Server.login, hu, hpw]
      · simp only [Server.login, hu, hpw]
        simp [logger_audit_ok _ _ hsink]
    · intro hpw
      constructor
      · simp [Server.login, hu, hpw]
      · simp only [Server.login, hu, hpw]
        simp [logger_audit_ok _ _ hsink]
  · intro hu
    constructor
    · simp [Server.login, hu]
    · simp only [Server.login, hu]
      simp [logger_audit_ok _ _ hsink]

/-- Witness for C4: user1 with the right password logs in as user1 and
a wrong password for admin logs a failure with role unknown. -/
theorem login_credential_check_witness :
    (Server.login (some "user1") (some "password1") 3
        ⟨[], [], false, [], false⟩).fst
      = LoginResult.ok ⟨1, "user1", "user"⟩ ∧
    (Server.login (some "admin") (some "wrong") 3
        ⟨[], [], false, [], false⟩).snd.audit
      = [⟨3, some "admin", "unknown", "LOGIN_FAILED"⟩] := by
  constructor
  · have h := login_credential_check (some "user1") (some "password1") 3
        ⟨[], [], false, [], false⟩ (by decide)
    exact ((h.1 ⟨1, "user1", "password1", "user"⟩ (by decide)).1 (by decide)).1
  · have h := login_credential_check (some "admin") (some "wrong") 3
        ⟨[], [], false, [], false⟩ (by decide)
    have h2 := ((h.1 ⟨99, "admin", "adminpass", "admin"⟩ (by decide)).2 (by decide)).2
    rw [h2]; decide

/-- C5: when a note with the given id sits in the active collection,
the caller may delete it, and each collection holds at most one record
with that id, deleting the id twice yields success then NotFound: the
first delete removes the id from both the primary and the fallback
collection, so the second lookup fails under either outage-flag state. -/
theorem deleteHandler_idempotent_notFound (user : Identity) (nid now1 now2 : Nat)
    (st : St) (note : Note)
    (hfind : (getNotes st).find? (fun n => n.id == nid) = some note)
    (hcan : canDelete user note = true)
    (hp : st.primary.countP (fun n => n.id == nid) ≤ 1)
    (hf : st.fallback.countP (fun n => n.id == nid) ≤ 1) :
    (Server.deleteHandler user nid now1 st).fst = DeleteResult.deleted ∧
    (∀ x ∈ (Server.deleteHandler user nid now1 st).snd.primary, x.id ≠ nid) ∧
    (∀ x ∈ (Server.deleteHandler user nid now1 st).snd.fallback, x.id ≠ nid) ∧
    (∀ b : Bool,
        (getNotes { (Server.deleteHandler user nid now1 st).snd with outage := b }).find?
            (fun n => n.id == nid) = none) ∧
    (Server.deleteHandler user nid now2
        (Server.deleteHandler user nid now1 st).snd).fst = DeleteResult.notFound := by
  have hres : Server.deleteHandler user nid now1 st
      = (DeleteResult.deleted,
         Server.logger ⟨now1, some user.username, user.role, "DELETE_NOTE"⟩
           (deleteNote nid st)) := by
    rw [Server.deleteHandler]
    simp [hfind, hcan]
  have hsp : (Server.deleteHandler user nid now1 st).snd.primary
      = st.primary.eraseP (fun n => n.id == nid) := by
    rw [hres, logger_primary, deleteNote]
  have hsf : (Server.deleteHandler user nid now1 st).snd.fallback
      = st.fallback.eraseP (fun n => n.id == nid) := by
    rw [hres, logger_fallback, deleteNote]
  have hnp : ∀ x ∈ (Server.deleteHandler user nid now1 st).snd.primary, x.id ≠ nid := by
    intro x hx
    rw [hsp] at hx
    have := countP_le_one_eraseP (fun n => n.id == nid) st.primary hp x hx
    simpa using this
  have hnf : ∀ x ∈ (Server.deleteHandler user nid now1 st).snd.fallback, x.id ≠ nid := by
    intro x hx
    rw [hsf] at hx
    have := countP_le_one_eraseP (fun n => n.id == nid) st.fallback hf x hx
    simpa using this
  have hnone : ∀ b : Bool,
      (getNotes { (Server.deleteHandler user nid now1 st).snd with outage := b }).find?
          (fun n => n.id == nid) = none := by
    intro b
    rw [List.find?_eq_none]
    intro x hx
    rw [getNotes, mem_sortByTimestampDesc] at hx
    have hx' : x ∈ (Server.deleteHandler user nid now1 st).snd.fallback ∨
        x ∈ (Server.deleteHandler user nid now1 st).snd.primary := by
      cases b
      · exact Or.inr (by simpa using hx)
      · exact Or.inl (by simpa using hx)
    have hne : x.id ≠ nid := by
      rcases hx' with h | h
      · exact hnf x h
      · exact hnp x h
    simpa using hne
  refine ⟨by rw [hres], hnp, hnf, hnone, ?_⟩
  rw [Server.deleteHandler]
  have h2 : (getNotes (Server.deleteHandler user nid now1 st).snd).find?
      (fun n => n.id == nid) = none := by
    have := hnone (Server.deleteHandler user nid now1 st).snd.outage
    simpa using this
  simp [h2]

/-- Witness for C5: user1 deletes their only note; the second delete
of the same id answers NotFound. -/
theorem deleteHandler_idempotent_notFound_witness :
    (Server.deleteHandler ⟨1, "user1", "user"⟩ 5 8
        ⟨[⟨5, some "a", 1, "user1", 5⟩], [⟨5, some "a", 1, "user1", 5⟩],
         false, [], false⟩).fst = DeleteResult.deleted ∧
    (Server.deleteHandler ⟨1, "user1", "user"⟩ 5 9
        (Server.deleteHandler ⟨1, "user1", "user"⟩ 5 8
          ⟨[⟨5, some "a", 1, "user1", 5⟩], [⟨5, some "a", 1, "user1", 5⟩],
           false, [], false⟩).snd).fst = DeleteResult.notFound := by
  have h := deleteHandler_idempotent_notFound ⟨1, "user1", "user"⟩ 5 8 9
      ⟨[⟨5, some "a", 1, "user1", 5⟩], [⟨5, some "a", 1, "user1", 5⟩],
       false, [], false⟩ ⟨5, some "a", 1, "user1", 5⟩
      (by decide) (by decide) (by decide) (by decide)
  exact ⟨h.1, h.2.2.2.2⟩

/-- C10: when the delete handler answers NotFound, the whole state is
returned unchanged; when it answers Forbidden, both note collections
are unchanged; and an id absent from the active read collection is
answered NotFound with nothing deleted, even when a record with that id
sits in the non-active collection. -/
theorem deleteHandler_notFound_denied_unchanged (user : Identity) (nid now : Nat)
    (st : St) :
    ((getNotes st).find? (fun n => n.id == nid) = none →
        Server.deleteHandler user nid now st = (DeleteResult.notFound, st)) ∧
    (∀ note : Note, (getNotes st).find? (fun n => n.id == nid) = some note →
        canDelete user note = false →
        (Server.deleteHandler user nid now st).fst = DeleteResult.denied ∧
        (Server.deleteHandler user nid now st).snd.primary = st.primary ∧
        (Server.deleteHandler user nid now st).snd.fallback = st.fallback) ∧
    (∀ x : Note, x.id = nid →
        x ∈ (if st.outage then st.primary else st.fallback) →
        (∀ m ∈ (if st.outage then st.fallback else st.primary), m.id ≠ nid) →
        Server.deleteHandler user nid now st = (DeleteResult.notFound, st) ∧
        x ∈ (if st.outage
              then (Server.deleteHandler user nid now st).snd.primary
              else (Server.deleteHandler user nid now st).snd.fallback)) := by
  have hnone : (getNotes st).find? (fun n => n.id == nid) = none →
      Server.deleteHandler user nid now st = (DeleteResult.notFound, st) := by
    intro h
    rw [Server.deleteHandler]
    simp [h]
  refine ⟨hnone, ?_, ?_⟩
  · intro note hfind hcan
    rw [Server.deleteHandler]
    simp only [hfind, hcan]
    refine ⟨by simp, ?_, ?_⟩
    · simp [logger_primary]
    · simp [logger_fallback]
  · intro x hxid hxmem hactive
    have hfind : (getNotes st).find? (fun n => n.id == nid) = none := by
      rw [List.find?_eq_none]
      intro m hm
      rw [getNotes, mem_sortByTimestampDesc] at hm
      simpa using hactive m hm
    have hst := hnone hfind
    refine ⟨hst, ?_⟩
    rw [hst]
    cases h : st.outage
    · simpa [h] using (by simpa [h] using hxmem : x ∈ st.fallback)
    · simpa [h] using (by simpa [h] using hxmem : x ∈ st.primary)

/-- Witness for C10: with the outage flag set, a note living only in
the primary collection cannot be deleted: the handler answers NotFound
and the primary collection keeps the record. -/
theorem deleteHandler_notFound_denied_unchanged_witness :
    Server.deleteHandler ⟨1, "user1", "user"⟩ 5 8
        ⟨[⟨5, some "a", 1, "user1", 5⟩], [], true, [], false⟩
      = (DeleteResult.notFound,
         ⟨[⟨5, some "a", 1, "user1", 5⟩], [], true, [], false⟩) := by
  have h := (deleteHandler_notFound_denied_unchanged ⟨1, "user1", "user"⟩ 5 8
      ⟨[⟨5, some "a", 1, "user1", 5⟩], [], true, [], false⟩).2.2
      ⟨5, some "a", 1, "user1", 5⟩ (by decide) (by decide) (by decide)
  exact h.1

/-- C7 counterexample: in the session variant the logger has no
try/catch, so a failing audit insert aborts the create handler: the
same create succeeds when the audit store works and rejects when it
fails, i.e. the audit failure changes the caller's primary outcome. -/
theorem session_audit_failure_aborts_create :
    (Session.createNote ⟨1, "user1", "user"⟩ (some "hello") 5
        ⟨[], [], false, [], true⟩).isOk = false ∧
    (Session.createNote ⟨1, "user1", "user"⟩ (some "hello") 5
        ⟨[], [], false, [], false⟩).isOk = true := by
  decide

/-- C7 (amended): in the try/catch variant of `src/server.js` every
handler's primary outcome — login result, created note, delete result
and both note collections — is identical whether or not the audit
store's insert fails; only the session variant propagates the failure. -/
theorem server_audit_failure_swallowed (user : Identity)
    (username password content : Option String) (nid now : Nat) (st : St) :
    (Server.login username password now { st with auditSinkFails := true }).fst
      = (Server.login username password now { st with auditSinkFails := false }).fst ∧
    (Server.createNote user content now { st with auditSinkFails := true }).fst
      = (Server.createNote user content now { st with auditSinkFails := false }).fst ∧
    (Server.createNote user content now { st with auditSinkFails := true }).snd.primary
      = (Server.createNote user content now { st with auditSinkFails := false }).snd.primary ∧
    (Server.createNote user content now { st with auditSinkFails := true }).snd.fallback
      = (Server.createNote user content now { st with auditSinkFails := false }).snd.fallback ∧
    (Server.deleteHandler user nid now { st with auditSinkFails := true }).fst
      = (Server.deleteHandler user nid now { st with auditSinkFails := false }).fst ∧
    (Server.deleteHandler user nid now { st with auditSinkFails := true }).snd.primary
      = (Server.deleteHandler user nid now { st with auditSinkFails := false }).snd.primary ∧
    (Server.deleteHandler user nid now { st with auditSinkFails := true }).snd.fallback
      = (Server.deleteHandler user nid now { st with auditSinkFails := false }).snd.fallback := by
  have hg : getNotes { st with auditSinkFails := true }
      = getNotes { st with auditSinkFails := false } := rfl
  refine ⟨?_, rfl, ?_, ?_, ?_, ?_, ?_⟩
  · rw [Server.login, Server.login]
    cases hfu : findUser username with
    | none => rfl
    | some u => cases hpw : passwordMatches u.password password <;> simp [hpw]
  · simp [Server.createNote, logger_primary, addNote]
  · simp [Server.createNote, logger_fallback, addNote]
  · rw [Server.deleteHandler, Server.deleteHandler, hg]
    cases h : (getNotes { st with auditSinkFails := false }).find? (fun n => n.id == nid) with
    | none => rfl
    | some note => cases hc : canDelete user note <;> simp [hc]
  · rw [Server.deleteHandler, Server.deleteHandler, hg]
    cases h : (getNotes { st with auditSinkFails := false }).find? (fun n => n.id == nid) with
    | none => rfl
    | some note =>
        cases hc : canDelete user note <;>
          simp [hc, logger_primary, deleteNote]
  · rw [Server.deleteHandler, Server.deleteHandler, hg]
    cases h : (getNotes { st with auditSinkFails := false }).find? (fun n => n.id == nid) with
    | none => rfl
    | some note =>
        cases hc : canDelete user note <;>
          simp [hc, logger_fallback, deleteNote]

/-- C8 counterexample: the create handler of `src/server.js` performs
no validation: with `content` absent it still answers 201 with a
created note and inserts the record into the primary collection. -/
theorem server_create_missing_content_created :
    (Server.createNote ⟨1, "user1", "user"⟩ none 5
        ⟨[], [], false, [], false⟩).fst
      = CreateResult.created ⟨5, none, 1, "user1", 5⟩ ∧
    (Server.createNote ⟨1, "user1", "user"⟩ none 5
        ⟨[], [], false, [], false⟩).snd.primary
      = [⟨5, none, 1, "user1", 5⟩] := by
  decide

/-- C8 (amended): in `src/api/index.js` a missing (or empty) username
or password makes the login handler answer 400 with the state
untouched, and a missing (or empty) content makes the create handler
answer 400 with the state untouched; the `src/server.js` create
handler has no such check. -/
theorem api_missing_field_bad_request (user : Identity)
    (username password content : Option String) (now : Nat) (st : St) :
    (falsy username = true ∨ falsy password = true →
        Api.login username password now st = (LoginResult.badRequest, st)) ∧
    (falsy content = true →
        Api.createNote user content now st = (CreateResult.badRequest, st)) := by
  constructor
  · intro h
    rw [Api.login]
    rcases h with h | h <;> simp [h]
  · intro h
    rw [Api.createNote]
    simp [h]

/-- Witness for the amended C8: a login with no password and a create
with no content are both rejected with 400 and change nothing. -/
theorem api_missing_field_bad_request_witness :
    Api.login (some "user1") none 5 ⟨[], [], false, [], false⟩
      = (LoginResult.badRequest, ⟨[], [], false, [], false⟩) ∧
    Api.createNote ⟨1, "user1", "user"⟩ (some "") 5 ⟨[], [], false, [], false⟩
      = (CreateResult.badRequest, ⟨[], [], false, [], false⟩) := by
  have h := api_missing_field_bad_request ⟨1, "user1", "user"⟩
      (some "user1") none (some "") 5 ⟨[], [], false, [], false⟩
  exact ⟨h.1 (Or.inr (by decide)), h.2 (by decide)⟩

/-- C9 counterexample: two notes created in sequence within the same
clock tick (`Date.now()` returning 7 both times) are distinct records
that receive the same id, so created ids are not always distinct. -/
theorem createNote_same_tick_id_collision :
    (Server.createNote ⟨1, "user1", "user"⟩ (some "a") 7
        ⟨[], [], false, [], false⟩).fst
      = CreateResult.created ⟨7, some "a", 1, "user1", 7⟩ ∧
    (Server.createNote ⟨2, "user2", "user"⟩ (some "b") 7
        (Server.createNote ⟨1, "user1", "user"⟩ (some "a") 7
          ⟨[], [], false, [], false⟩).snd).fst
      = CreateResult.created ⟨7, some "b", 2, "user2", 7⟩ ∧
    (⟨7, some "a", 1, "user1", 7⟩ : Note).id = (⟨7, some "b", 2, "user2", 7⟩ : Note).id ∧
    (⟨7, some "a", 1, "user1", 7⟩ : Note) ≠ (⟨7, some "b", 2, "user2", 7⟩ : Note) := by
  decide

/-- C9 (amended): a created note's id equals the `Date.now()` reading
at creation, so ids are monotonically non-decreasing whenever the
clock is non-decreasing, and distinct whenever the two creates happen
at distinct clock ticks; two creates within one tick share an id. -/
theorem note_id_monotone_in_clock (u1 u2 : Identity) (c1 c2 : Option String)
    (now1 now2 : Nat) (st1 st2 : St) (h : now1 ≤ now2) :
    (Server.createNote u1 c1 now1 st1).fst = CreateResult.created (newNote u1 c1 now1) ∧
    (Server.createNote u2 c2 now2 st2).fst = CreateResult.created (newNote u2 c2 now2) ∧
    (newNote u1 c1 now1).id ≤ (newNote u2 c2 now2).id ∧
    (now1 < now2 → (newNote u1 c1 now1).id ≠ (newNote u2 c2 now2).id) := by
  refine ⟨rfl, rfl, ?_, ?_⟩
  · simpa [newNote] using h
  · intro hlt
    simpa [newNote] using Nat.ne_of_lt hlt

/-- Witness for the amended C9 at clock readings 7 and 9. -/
theorem note_id_monotone_in_clock_witness :
    (newNote ⟨1, "user1", "user"⟩ (some "a") 7).id
      ≤ (newNote ⟨2, "user2", "user"⟩ (some "b") 9).id ∧
    (newNote ⟨1, "user1", "user"⟩ (some "a") 7).id
      ≠ (newNote ⟨2, "user2", "user"⟩ (some "b") 9).id := by
  have h := note_id_monotone_in_clock ⟨1, "user1", "user"⟩ ⟨2, "user2", "user"⟩
      (some "a") (some "b") 7 9 ⟨[], [], false, [], false⟩
      ⟨[], [], false, [], false⟩ (by decide)
  exact ⟨h.2.2.1, h.2.2.2 (by decide)⟩
